import Mathlib

/-!
Verification of the `redshift_group_schema_privilege` and `redshift_schema`
resources of the terraform-provider-redshift repository.

The Go source is shallowly embedded as follows.  A reconcile operation runs
against an oracle `Db` describing how the warehouse answers every query and
statement the operation may issue.  Each operation returns the trace of
connection events it performed (`Begin`, `Exec`, `QueryRow`, `Rollback`,
`Commit`) together with its Go return value (an `Except` mirroring the
`error` result and the mutated `*schema.ResourceData`).  Transaction
semantics are recovered from the trace by `appliedStmts`, which replays the
trace and keeps only statements of committed transactions.
-/

namespace Redshift

/-- The seven boolean attributes of the redshift_group_schema_privilege
resource schema. -/
structure PrivilegeSet where
  select : Bool
  insert : Bool
  update : Bool
  delete : Bool
  references : Bool
  create : Bool
  usage : Bool
  deriving DecidableEq, Repr

/-- The all-false privilege set (every attribute at its schema default). -/
def allFalsePrivs : PrivilegeSet :=
  { select := false, insert := false, update := false, delete := false
    references := false, create := false, usage := false }

/-- Model of `*schema.ResourceData` for the privilege resource: `privs` holds
the current attribute values returned by `d.Get`, `oldPrivs` the prior state
that `d.HasChange` compares against, and `id` the resource identifier. -/
structure ResourceData where
  schemaId : Int
  groupId : Int
  oldPrivs : PrivilegeSet
  privs : PrivilegeSet
  id : String
  deriving DecidableEq, Repr

/-- Errors coming back from the database driver: `noRows` models
`sql.ErrNoRows`, `fail` any other query or execution error. -/
inductive DbError where
  | noRows : DbError
  | fail : String → DbError
  deriving DecidableEq, Repr

/-- Errors returned by the resource hooks: `validation` models the
`errorString` produced by `NewError`, `db` a database error passed through. -/
inductive ProviderError where
  | validation : String → ProviderError
  | db : DbError → ProviderError
  deriving DecidableEq, Repr

/-- One event on the shared connection.  `commit` records whether the commit
call succeeded. -/
inductive DbEvent where
  | beginTx : DbEvent
  | exec : String → DbEvent
  | queryRow : String → DbEvent
  | rollback : DbEvent
  | commit : Bool → DbEvent
  deriving DecidableEq, Repr

/-- Row scanned by the table-privilege catalog query, in the column order of
`hasPrivilegeQuery` (select, update, insert, delete, references). -/
structure TablePrivRow where
  select : Bool
  update : Bool
  insert : Bool
  delete : Bool
  references : Bool
  deriving DecidableEq, Repr

/-- Row scanned by the schema-privilege catalog query (usage, create). -/
structure SchemaPrivRow where
  usage : Bool
  create : Bool
  deriving DecidableEq, Repr

/-- Oracle describing the warehouse responses.  `execRes n s` is the outcome
of the n-th `tx.Exec` of the operation when it executes statement `s`
(`none` means success).  `rollbackRes` is the outcome of `tx.Rollback`; the
source only logs a rollback failure, so no definition below consults it. -/
structure Db where
  schemaInfo : Int → Except DbError (String × Int)
  groupNameFor : Int → Except DbError String
  execRes : Nat → String → Option DbError
  privRow : Int → Int → Except DbError TablePrivRow
  schemaPrivRow : Int → Int → Except DbError SchemaPrivRow
  existsRow : String → Except DbError String
  schemaExistsRow : String → Except DbError String
  rollbackRes : Option DbError
  commitRes : Option DbError

/-- Tag of the query issued by `GetSchemaInfoForSchemaId`. -/
def schemaInfoQuery : String := "SELECT nspname, nspowner FROM pg_namespace WHERE oid = $1"

/-- Tag of the query issued by `GetGroupNameForGroupId`. -/
def groupNameQuery : String := "GetGroupNameForGroupId"

/-- Tag of the table-privilege catalog query of
`readRedshiftSchemaGroupPrivilege`. -/
def hasPrivilegeQuery : String := "hasPrivilegeQuery"

/-- Tag of the schema-privilege catalog query of
`readRedshiftSchemaGroupPrivilege`. -/
def hasSchemaPrivilegeQuery : String := "hasSchemaPrivilegeQuery"

/-- Tag of the existence query of
`resourceRedshiftSchemaGroupPrivilegeExists`. -/
def privilegeExistsQuery : String := "schemaGroupPrivilegeExistsQuery"

/-- Tag of the existence query of `resourceRedshiftSchemaExists`. -/
def schemaExistsQuery : String := "SELECT nspname FROM pg_namespace WHERE oid = $1"

/-- GRANT on all tables, as built by `updatePrivilege` (note the doubled
space before GROUP, exactly as in the source). -/
def grantTablesStmt (privilege schemaName groupName : String) : String :=
  "GRANT " ++ privilege ++ " ON ALL TABLES IN SCHEMA " ++ schemaName ++ " TO  GROUP " ++ groupName

/-- ALTER DEFAULT PRIVILEGES grant, as built by `updatePrivilege`. -/
def alterDefaultGrantStmt (privilege schemaName groupName : String) : String :=
  "ALTER DEFAULT PRIVILEGES IN SCHEMA " ++ schemaName ++ " GRANT " ++ privilege ++ " ON TABLES TO GROUP " ++ groupName

/-- REVOKE on all tables, as built by `updatePrivilege`. -/
def revokeTablesStmt (privilege schemaName groupName : String) : String :=
  "REVOKE " ++ privilege ++ " ON ALL TABLES IN SCHEMA " ++ schemaName ++ " FROM GROUP " ++ groupName

/-- ALTER DEFAULT PRIVILEGES revoke, as built by `updatePrivilege`. -/
def alterDefaultRevokeStmt (privilege schemaName groupName : String) : String :=
  "ALTER DEFAULT PRIVILEGES IN SCHEMA " ++ schemaName ++ " REVOKE " ++ privilege ++ " ON TABLES FROM GROUP " ++ groupName

/-- GRANT on the schema object, as built by `updateSchemaPrivilege` (doubled
space before GROUP as in the source). -/
def grantSchemaStmt (privilege schemaName groupName : String) : String :=
  "GRANT " ++ privilege ++ " ON SCHEMA " ++ schemaName ++ " TO  GROUP " ++ groupName

/-- REVOKE on the schema object, as built by `updateSchemaPrivilege`. -/
def revokeSchemaStmt (privilege schemaName groupName : String) : String :=
  "REVOKE " ++ privilege ++ " ON SCHEMA " ++ schemaName ++ " FROM GROUP " ++ groupName

/-- Combined GRANT built by the Create hook over the joined grant list. -/
def createGrantStmt (grants : List String) (schemaName groupName : String) : String :=
  "GRANT " ++ String.intercalate "," grants ++ " ON ALL TABLES IN SCHEMA " ++ schemaName ++ " TO GROUP " ++ groupName

/-- Combined ALTER DEFAULT PRIVILEGES built by the Create hook. -/
def createAlterDefaultStmt (grants : List String) (schemaName groupName : String) : String :=
  "ALTER DEFAULT PRIVILEGES IN SCHEMA " ++ schemaName ++ " GRANT " ++ String.intercalate "," grants ++ " ON TABLES TO GROUP " ++ groupName

/-- Combined schema-object GRANT built by the Create hook. -/
def createSchemaGrantStmt (schemaGrants : List String) (schemaName groupName : String) : String :=
  "GRANT " ++ String.intercalate "," schemaGrants ++ " ON SCHEMA " ++ schemaName ++ " TO GROUP " ++ groupName

/-- First statement of the Delete hook (doubled space after ON as in the
source). -/
def deleteRevokeTablesStmt (schemaName groupName : String) : String :=
  "REVOKE ALL ON  ALL TABLES IN SCHEMA " ++ schemaName ++ " FROM GROUP " ++ groupName

/-- Second statement of the Delete hook. -/
def deleteAlterDefaultStmt (schemaName groupName : String) : String :=
  "ALTER DEFAULT PRIVILEGES IN SCHEMA " ++ schemaName ++ " REVOKE ALL ON TABLES FROM GROUP " ++ groupName

/-- Third statement of the Delete hook. -/
def deleteRevokeSchemaStmt (schemaName groupName : String) : String :=
  "REVOKE ALL ON SCHEMA " ++ schemaName ++ " FROM GROUP " ++ groupName

/-- Embedding of `validateGrants`: table-level privilege keywords for the
attributes that are set (`d.GetOk` reports ok only for a true boolean, so
the chain of appends keeps exactly the true flags, in source order). -/
def validateGrants (p : PrivilegeSet) : List String :=
  (if p.select then ["SELECT"] else []) ++
  (if p.insert then ["INSERT"] else []) ++
  (if p.update then ["UPDATE"] else []) ++
  (if p.delete then ["DELETE"] else []) ++
  (if p.references then ["REFERENCES"] else [])

/-- Embedding of `validateSchemaGrants` (CREATE before USAGE, source order). -/
def validateSchemaGrants (p : PrivilegeSet) : List String :=
  (if p.create then ["CREATE"] else []) ++
  (if p.usage then ["USAGE"] else [])

/-- Embedding of `isSystemSchema`. -/
def isSystemSchema (schemaOwner : Int) : Bool :=
  schemaOwner == 1

/-- Identifier set by the Create hook:
`fmt.Sprint(schema_id) + "_" + fmt.Sprint(group_id)`. -/
def mkPrivilegeId (schemaId groupId : Int) : String :=
  toString schemaId ++ "_" ++ toString groupId

/-- Row filter of the Exists query of the privilege resource, translated
from `nsp.oid || CONCAT_UNDERSCORE || pu.grosysid = $1` in the SQL text. -/
def existsQueryIdMatch (oid grosysid : Int) (queryId : String) : Bool :=
  toString oid ++ "_" ++ toString grosysid == queryId

/-- Runs a list of statements through `tx.Exec` starting at exec index `n`,
stopping at the first failure, as the straight-line Go code does.  Returns
the events performed and the first error, if any. -/
def execStmts (db : Db) (n : Nat) : List String → List DbEvent × Option DbError
  | [] => ([], none)
  | s :: rest =>
    match db.execRes n s with
    | some e => ([DbEvent.exec s], some e)
    | none =>
      let q := execStmts db (n + 1) rest
      (DbEvent.exec s :: q.1, q.2)

/-- Models a `row.Scan` whose error is tolerated when it is `sql.ErrNoRows`:
in that case the scanned variables keep their zero values. -/
def scanRow {α : Type} (res : Except DbError α) (zero : α) : Except DbError α :=
  match res with
  | .error DbError.noRows => .ok zero
  | .error e => .error e
  | .ok r => .ok r

/-- Zero value of the five table-privilege scan variables. -/
def zeroTableRow : TablePrivRow :=
  { select := false, update := false, insert := false, delete := false, references := false }

/-- Zero value of the two schema-privilege scan variables. -/
def zeroSchemaRow : SchemaPrivRow :=
  { usage := false, create := false }

/-- Embedding of `readRedshiftSchemaGroupPrivilege`: two catalog queries; a
genuine failure of either rolls back and is returned, `sql.ErrNoRows`
leaves every flag false; on success the seven attributes are set from the
scanned columns. -/
def readRedshiftSchemaGroupPrivilege (db : Db) (d : ResourceData) :
    List DbEvent × Except DbError ResourceData :=
  match scanRow (db.privRow d.schemaId d.groupId) zeroTableRow with
  | .error e => ([DbEvent.queryRow hasPrivilegeQuery, DbEvent.rollback], .error e)
  | .ok t =>
    match scanRow (db.schemaPrivRow d.schemaId d.groupId) zeroSchemaRow with
    | .error e =>
      ([DbEvent.queryRow hasPrivilegeQuery, DbEvent.queryRow hasSchemaPrivilegeQuery,
        DbEvent.rollback], .error e)
    | .ok s =>
      ([DbEvent.queryRow hasPrivilegeQuery, DbEvent.queryRow hasSchemaPrivilegeQuery],
       .ok { d with privs :=
        { select := t.select, insert := t.insert, update := t.update, delete := t.delete
          references := t.references, create := s.create, usage := s.usage } })

/-- The statements the Create hook executes: the combined table GRANT and
its ALTER DEFAULT PRIVILEGES mirror when any table-level grant is present,
then the combined schema GRANT when any schema-level grant is present. -/
def createStmtList (p : PrivilegeSet) (schemaName groupName : String) : List String :=
  (if (validateGrants p).isEmpty then []
   else [createGrantStmt (validateGrants p) schemaName groupName,
         createAlterDefaultStmt (validateGrants p) schemaName groupName]) ++
  (if (validateSchemaGrants p).isEmpty then []
   else [createSchemaGrantStmt (validateSchemaGrants p) schemaName groupName])

/-- The resource data after `d.SetId` in the Create hook. -/
def withPrivilegeId (d : ResourceData) : ResourceData :=
  { d with id := mkPrivilegeId d.schemaId d.groupId }

/-- Embedding of `resourceRedshiftSchemaGroupPrivilegeCreate`. -/
def resourceRedshiftSchemaGroupPrivilegeCreate (db : Db) (d : ResourceData) :
    List DbEvent × Except ProviderError ResourceData :=
  if (validateGrants d.privs).isEmpty && (validateSchemaGrants d.privs).isEmpty then
    ([DbEvent.beginTx, DbEvent.rollback],
     .error (ProviderError.validation "Must have at least 1 privilege"))
  else
    match db.schemaInfo d.schemaId with
    | .error e =>
      ([DbEvent.beginTx, DbEvent.queryRow schemaInfoQuery, DbEvent.rollback],
       .error (ProviderError.db e))
    | .ok (schemaName, schemaOwner) =>
      if isSystemSchema schemaOwner then
        ([DbEvent.beginTx, DbEvent.queryRow schemaInfoQuery, DbEvent.rollback],
         .error (ProviderError.validation
           ("Privilege creation is not allowed for system schemas, schema=" ++ schemaName)))
      else
        match db.groupNameFor d.groupId with
        | .error e =>
          ([DbEvent.beginTx, DbEvent.queryRow schemaInfoQuery, DbEvent.queryRow groupNameQuery,
            DbEvent.rollback], .error (ProviderError.db e))
        | .ok groupName =>
          let pre := [DbEvent.beginTx, DbEvent.queryRow schemaInfoQuery,
                      DbEvent.queryRow groupNameQuery]
          let p := execStmts db 0 (createStmtList d.privs schemaName groupName)
          match p.2 with
          | some e => (pre ++ p.1 ++ [DbEvent.rollback], .error (ProviderError.db e))
          | none =>
            let rp := readRedshiftSchemaGroupPrivilege db (withPrivilegeId d)
            match rp.2 with
            | .error e => (pre ++ p.1 ++ rp.1 ++ [DbEvent.rollback], .error (ProviderError.db e))
            | .ok d2 =>
              match db.commitRes with
              | some e => (pre ++ p.1 ++ rp.1 ++ [DbEvent.commit false], .error (ProviderError.db e))
              | none => (pre ++ p.1 ++ rp.1 ++ [DbEvent.commit true], .ok d2)

/-- Embedding of `resourceRedshiftSchemaGroupPrivilegeRead`. -/
def resourceRedshiftSchemaGroupPrivilegeRead (db : Db) (d : ResourceData) :
    List DbEvent × Except ProviderError ResourceData :=
  let rp := readRedshiftSchemaGroupPrivilege db d
  match rp.2 with
  | .error e => (DbEvent.beginTx :: (rp.1 ++ [DbEvent.rollback]), .error (ProviderError.db e))
  | .ok d1 =>
    match db.commitRes with
    | some e => (DbEvent.beginTx :: (rp.1 ++ [DbEvent.commit false]), .error (ProviderError.db e))
    | none => (DbEvent.beginTx :: (rp.1 ++ [DbEvent.commit true]), .ok d1)

/-- Embedding of `updatePrivilege`: no-op when the attribute did not change,
otherwise a GRANT (or REVOKE) on all tables followed by the matching ALTER
DEFAULT PRIVILEGES statement, stopping at the first failure. -/
def updatePrivilege (db : Db) (n : Nat) (oldVal attrVal : Bool)
    (privilege schemaName groupName : String) : List DbEvent × Option DbError :=
  if oldVal == attrVal then ([], none)
  else if attrVal then
    execStmts db n [grantTablesStmt privilege schemaName groupName,
                    alterDefaultGrantStmt privilege schemaName groupName]
  else
    execStmts db n [revokeTablesStmt privilege schemaName groupName,
                    alterDefaultRevokeStmt privilege schemaName groupName]

/-- Embedding of `updateSchemaPrivilege`: no-op when unchanged, otherwise a
single GRANT or REVOKE on the schema object. -/
def updateSchemaPrivilege (db : Db) (n : Nat) (oldVal attrVal : Bool)
    (privilege schemaName groupName : String) : List DbEvent × Option DbError :=
  if oldVal == attrVal then ([], none)
  else if attrVal then
    execStmts db n [grantSchemaStmt privilege schemaName groupName]
  else
    execStmts db n [revokeSchemaStmt privilege schemaName groupName]

/-- One entry of the Update hook's fixed sequence of per-attribute calls. -/
structure FlagUpdate where
  schemaLevel : Bool
  old : Bool
  attr : Bool
  priv : String
  deriving DecidableEq, Repr

/-- The seven per-attribute calls of the Update hook, in source order. -/
def updateFlagList (d : ResourceData) : List FlagUpdate :=
  [{ schemaLevel := false, old := d.oldPrivs.select, attr := d.privs.select, priv := "SELECT" },
   { schemaLevel := false, old := d.oldPrivs.insert, attr := d.privs.insert, priv := "INSERT" },
   { schemaLevel := false, old := d.oldPrivs.update, attr := d.privs.update, priv := "UPDATE" },
   { schemaLevel := false, old := d.oldPrivs.delete, attr := d.privs.delete, priv := "DELETE" },
   { schemaLevel := false, old := d.oldPrivs.references, attr := d.privs.references, priv := "REFERENCES" },
   { schemaLevel := true, old := d.oldPrivs.usage, attr := d.privs.usage, priv := "USAGE" },
   { schemaLevel := true, old := d.oldPrivs.create, attr := d.privs.create, priv := "CREATE" }]

/-- Runs the Update hook's per-attribute calls in sequence: each failing
call is followed by one rollback and its error is returned, exactly like
the seven identical error-handling blocks in the source. -/
def runFlagUpdates (db : Db) (schemaName groupName : String) (n : Nat) :
    List FlagUpdate → List DbEvent × Option DbError
  | [] => ([], none)
  | b :: rest =>
    let p := if b.schemaLevel then
        updateSchemaPrivilege db n b.old b.attr b.priv schemaName groupName
      else
        updatePrivilege db n b.old b.attr b.priv schemaName groupName
    match p.2 with
    | some e => (p.1 ++ [DbEvent.rollback], some e)
    | none =>
      let q := runFlagUpdates db schemaName groupName (n + p.1.length) rest
      (p.1 ++ q.1, q.2)

/-- Embedding of `resourceRedshiftSchemaGroupPrivilegeUpdate`.  Note that the
schema owner returned by the catalog lookup is discarded and, unlike the
Create hook, no `isSystemSchema` check is made. -/
def resourceRedshiftSchemaGroupPrivilegeUpdate (db : Db) (d : ResourceData) :
    List DbEvent × Except ProviderError ResourceData :=
  if (validateGrants d.privs).isEmpty && (validateSchemaGrants d.privs).isEmpty then
    ([DbEvent.beginTx, DbEvent.rollback],
     .error (ProviderError.validation "Must have at least 1 privilege"))
  else
    match db.schemaInfo d.schemaId with
    | .error e =>
      ([DbEvent.beginTx, DbEvent.queryRow schemaInfoQuery, DbEvent.rollback],
       .error (ProviderError.db e))
    | .ok (schemaName, _) =>
      match db.groupNameFor d.groupId with
      | .error e =>
        ([DbEvent.beginTx, DbEvent.queryRow schemaInfoQuery, DbEvent.queryRow groupNameQuery,
          DbEvent.rollback], .error (ProviderError.db e))
      | .ok groupName =>
        let pre := [DbEvent.beginTx, DbEvent.queryRow schemaInfoQuery,
                    DbEvent.queryRow groupNameQuery]
        let p := runFlagUpdates db schemaName groupName 0 (updateFlagList d)
        match p.2 with
        | some e => (pre ++ p.1, .error (ProviderError.db e))
        | none =>
          match db.commitRes with
          | some e => (pre ++ p.1 ++ [DbEvent.commit false], .error (ProviderError.db e))
          | none => (pre ++ p.1 ++ [DbEvent.commit true], .ok d)

/-- The three statements of the Delete hook. -/
def deleteStmtList (schemaName groupName : String) : List String :=
  [deleteRevokeTablesStmt schemaName groupName,
   deleteAlterDefaultStmt schemaName groupName,
   deleteRevokeSchemaStmt schemaName groupName]

/-- Embedding of `resourceRedshiftSchemaGroupPrivilegeDelete`. -/
def resourceRedshiftSchemaGroupPrivilegeDelete (db : Db) (d : ResourceData) :
    List DbEvent × Except ProviderError ResourceData :=
  match db.schemaInfo d.schemaId with
  | .error e =>
    ([DbEvent.beginTx, DbEvent.queryRow schemaInfoQuery, DbEvent.rollback],
     .error (ProviderError.db e))
  | .ok (schemaName, _) =>
    match db.groupNameFor d.groupId with
    | .error e =>
      ([DbEvent.beginTx, DbEvent.queryRow schemaInfoQuery, DbEvent.queryRow groupNameQuery,
        DbEvent.rollback], .error (ProviderError.db e))
    | .ok groupName =>
      let pre := [DbEvent.beginTx, DbEvent.queryRow schemaInfoQuery,
                  DbEvent.queryRow groupNameQuery]
      let p := execStmts db 0 (deleteStmtList schemaName groupName)
      match p.2 with
      | some e => (pre ++ p.1 ++ [DbEvent.rollback], .error (ProviderError.db e))
      | none =>
        match db.commitRes with
        | some e => (pre ++ p.1 ++ [DbEvent.commit false], .error (ProviderError.db e))
        | none => (pre ++ p.1 ++ [DbEvent.commit true], .ok d)

/-- Embedding of `resourceRedshiftSchemaGroupPrivilegeExists`: `(false, nil)`
on `sql.ErrNoRows`, `(false, err)` on any other error, `(true, nil)` when a
row is scanned. -/
def resourceRedshiftSchemaGroupPrivilegeExists (db : Db) (d : ResourceData) :
    Bool × Option DbError :=
  match db.existsRow d.id with
  | .error DbError.noRows => (false, none)
  | .error e => (false, some e)
  | .ok _ => (true, none)

/-- Embedding of `resourceRedshiftSchemaExists` (schema resource), same
three-way contract as the privilege Exists hook. -/
def resourceRedshiftSchemaExists (db : Db) (id : String) : Bool × Option DbError :=
  match db.schemaExistsRow id with
  | .error DbError.noRows => (false, none)
  | .error e => (false, some e)
  | .ok _ => (true, none)

/-- Statements appearing as exec events of a trace, in order. -/
def execsOf : List DbEvent → List String :=
  List.filterMap fun ev =>
    match ev with
    | DbEvent.exec s => some s
    | _ => none

/-- Replays a trace and returns the statements that took effect on the
warehouse: statements executed since the last transaction boundary are
buffered and survive only a successful commit. -/
def appliedStmts : List DbEvent → List String → List String
  | [], _ => []
  | DbEvent.beginTx :: rest, _ => appliedStmts rest []
  | DbEvent.exec s :: rest, buf => appliedStmts rest (buf ++ [s])
  | DbEvent.queryRow _ :: rest, buf => appliedStmts rest buf
  | DbEvent.rollback :: rest, _ => appliedStmts rest []
  | DbEvent.commit true :: rest, buf => buf ++ appliedStmts rest []
  | DbEvent.commit false :: rest, _ => appliedStmts rest []

/-- True when the hook result is the `errorString` of `NewError`. -/
def isValidationResult : Except ProviderError ResourceData → Bool
  | .error (ProviderError.validation _) => true
  | _ => false

/-- Statements of one entry of the Update hook's per-attribute sequence,
assuming every execution succeeds: two statements for a changed table-level
attribute, nothing for an unchanged one. -/
def tableFlagStmts (oldVal attrVal : Bool) (privilege schemaName groupName : String) :
    List String :=
  if oldVal == attrVal then []
  else if attrVal then
    [grantTablesStmt privilege schemaName groupName,
     alterDefaultGrantStmt privilege schemaName groupName]
  else
    [revokeTablesStmt privilege schemaName groupName,
     alterDefaultRevokeStmt privilege schemaName groupName]

/-- Statements of one schema-level entry: one statement when changed. -/
def schemaFlagStmts (oldVal attrVal : Bool) (privilege schemaName groupName : String) :
    List String :=
  if oldVal == attrVal then []
  else if attrVal then [grantSchemaStmt privilege schemaName groupName]
  else [revokeSchemaStmt privilege schemaName groupName]

/-- Statements of one `FlagUpdate` entry. -/
def flagStmts (b : FlagUpdate) (schemaName groupName : String) : List String :=
  if b.schemaLevel then schemaFlagStmts b.old b.attr b.priv schemaName groupName
  else tableFlagStmts b.old b.attr b.priv schemaName groupName

/-- Statements of a sequence of `FlagUpdate` entries. -/
def flagStmtsList : List FlagUpdate → String → String → List String
  | [], _, _ => []
  | b :: rest, schemaName, groupName =>
    flagStmts b schemaName groupName ++ flagStmtsList rest schemaName groupName

/-! Helper lemmas about the statement runner and traces. -/

theorem execStmts_success (db : Db) (h : ∀ i s, db.execRes i s = none) :
    ∀ (l : List String) (n : Nat), execStmts db n l = (l.map DbEvent.exec, none) := by
  intro l
  induction l with
  | nil => intro n; rfl
  | cons s rest ih =>
    intro n
    simp [execStmts, h n s, ih (n + 1)]

theorem execStmts_map_of_none (db : Db) :
    ∀ (l : List String) (n : Nat), (execStmts db n l).2 = none →
      (execStmts db n l).1 = l.map DbEvent.exec := by
  intro l
  induction l with
  | nil => intro n _; rfl
  | cons s rest ih =>
    intro n h
    cases hres : db.execRes n s with
    | some e => simp [execStmts, hres] at h
    | none =>
      simp only [execStmts, hres] at h ⊢
      simp only [List.map_cons, List.cons.injEq, true_and]
      exact ih (n + 1) h

theorem execStmts_append_ok (db : Db) :
    ∀ (l1 l2 : List String) (n : Nat), (execStmts db n l1).2 = none →
      execStmts db n (l1 ++ l2) =
        ((execStmts db n l1).1 ++ (execStmts db (n + l1.length) l2).1,
         (execStmts db (n + l1.length) l2).2) := by
  intro l1
  induction l1 with
  | nil => intro l2 n _; simp [execStmts]
  | cons s rest ih =>
    intro l2 n h
    cases hres : db.execRes n s with
    | some e => simp [execStmts, hres] at h
    | none =>
      simp only [execStmts, hres] at h ⊢
      simp only [List.append_eq]
      rw [ih l2 (n + 1) h]
      have harith : n + 1 + rest.length = n + (s :: rest).length := by
        simp only [List.length_cons]
        omega
      rw [harith]
      simp [List.cons_append]

theorem execStmts_append_err (db : Db) :
    ∀ (l1 l2 : List String) (n : Nat) (e : DbError), (execStmts db n l1).2 = some e →
      execStmts db n (l1 ++ l2) = ((execStmts db n l1).1, some e) := by
  intro l1
  induction l1 with
  | nil => intro l2 n e h; simp [execStmts] at h
  | cons s rest ih =>
    intro l2 n e h
    cases hres : db.execRes n s with
    | some e2 =>
      simp only [execStmts, hres] at h ⊢
      exact congrArg _ h
    | none =>
      simp only [execStmts, hres] at h ⊢
      simp only [List.append_eq]
      rw [ih l2 (n + 1) e h]

theorem mem_execStmts (db : Db) :
    ∀ (l : List String) (n : Nat) (ev : DbEvent), ev ∈ (execStmts db n l).1 →
      ∃ s, ev = DbEvent.exec s := by
  intro l
  induction l with
  | nil => intro n ev h; simp [execStmts] at h
  | cons s rest ih =>
    intro n ev h
    cases hres : db.execRes n s with
    | some e =>
      simp [execStmts, hres] at h
      exact ⟨s, h⟩
    | none =>
      simp [execStmts, hres] at h
      cases h with
      | inl h => exact ⟨s, h⟩
      | inr h => exact ih (n + 1) ev h

theorem updatePrivilege_eq (db : Db) (n : Nat) (o w : Bool) (p sn gn : String) :
    updatePrivilege db n o w p sn gn = execStmts db n (tableFlagStmts o w p sn gn) := by
  cases o <;> cases w <;> simp [updatePrivilege, tableFlagStmts, execStmts]

theorem updateSchemaPrivilege_eq (db : Db) (n : Nat) (o w : Bool) (p sn gn : String) :
    updateSchemaPrivilege db n o w p sn gn = execStmts db n (schemaFlagStmts o w p sn gn) := by
  cases o <;> cases w <;> simp [updateSchemaPrivilege, schemaFlagStmts, execStmts]

theorem runFlagUpdates_eq (db : Db) (sn gn : String) :
    ∀ (bs : List FlagUpdate) (n : Nat),
      runFlagUpdates db sn gn n bs =
        ((execStmts db n (flagStmtsList bs sn gn)).1 ++
           (match (execStmts db n (flagStmtsList bs sn gn)).2 with
            | some _ => [DbEvent.rollback]
            | none => []),
         (execStmts db n (flagStmtsList bs sn gn)).2) := by
  intro bs
  induction bs with
  | nil => intro n; simp [runFlagUpdates, flagStmtsList, execStmts]
  | cons b rest ih =>
    intro n
    have hb : (if b.schemaLevel then updateSchemaPrivilege db n b.old b.attr b.priv sn gn
        else updatePrivilege db n b.old b.attr b.priv sn gn) =
        execStmts db n (flagStmts b sn gn) := by
      cases hbl : b.schemaLevel <;>
        simp [flagStmts, hbl, updatePrivilege_eq, updateSchemaPrivilege_eq]
    rw [runFlagUpdates, hb]
    cases hp : (execStmts db n (flagStmts b sn gn)).2 with
    | some e =>
      simp only [hp, flagStmtsList]
      rw [execStmts_append_err db _ _ _ _ hp]
    | none =>
      simp only [hp]
      have hlen : (execStmts db n (flagStmts b sn gn)).1.length =
          (flagStmts b sn gn).length := by
        rw [execStmts_map_of_none db _ _ hp, List.length_map]
      rw [ih (n + (execStmts db n (flagStmts b sn gn)).1.length), hlen]
      simp only [flagStmtsList]
      rw [execStmts_append_ok db _ _ _ hp]
      simp [List.append_assoc]

theorem mem_runFlagUpdates (db : Db) (sn gn : String) (bs : List FlagUpdate) (n : Nat)
    (ev : DbEvent) (h : ev ∈ (runFlagUpdates db sn gn n bs).1) :
    (∃ s, ev = DbEvent.exec s) ∨ ev = DbEvent.rollback := by
  rw [runFlagUpdates_eq] at h
  rcases List.mem_append.mp h with h | h
  · exact Or.inl (mem_execStmts db _ n ev h)
  · cases hr : (execStmts db n (flagStmtsList bs sn gn)).2 with
    | some e =>
      rw [hr] at h
      simp at h
      exact Or.inr h
    | none =>
      rw [hr] at h
      simp at h

theorem appliedStmts_of_no_commit :
    ∀ (evs : List DbEvent), DbEvent.commit true ∉ evs →
      ∀ buf, appliedStmts evs buf = [] := by
  intro evs
  induction evs with
  | nil => intro _ buf; rfl
  | cons ev rest ih =>
    intro h buf
    have hrest : DbEvent.commit true ∉ rest := fun hr => h (List.mem_cons_of_mem _ hr)
    cases ev with
    | beginTx => simpa [appliedStmts] using ih hrest []
    | exec s => simpa [appliedStmts] using ih hrest (buf ++ [s])
    | queryRow q => simpa [appliedStmts] using ih hrest buf
    | rollback => simpa [appliedStmts] using ih hrest []
    | commit b =>
      cases b with
      | true => exact absurd (List.mem_cons_self _ _) h
      | false => simpa [appliedStmts] using ih hrest []

theorem execsOf_append (a b : List DbEvent) : execsOf (a ++ b) = execsOf a ++ execsOf b := by
  simp [execsOf, List.filterMap_append]

theorem execsOf_map_exec (l : List String) : execsOf (l.map DbEvent.exec) = l := by
  induction l with
  | nil => rfl
  | cons s rest ih => simp [execsOf] at ih ⊢; exact ih

theorem execsOf_nil : execsOf [] = [] := rfl

theorem execsOf_cons_beginTx (l : List DbEvent) :
    execsOf (DbEvent.beginTx :: l) = execsOf l := rfl

theorem execsOf_cons_queryRow (q : String) (l : List DbEvent) :
    execsOf (DbEvent.queryRow q :: l) = execsOf l := rfl

theorem execsOf_cons_rollback (l : List DbEvent) :
    execsOf (DbEvent.rollback :: l) = execsOf l := rfl

theorem execsOf_cons_commit (b : Bool) (l : List DbEvent) :
    execsOf (DbEvent.commit b :: l) = execsOf l := rfl

theorem execsOf_cons_exec (s : String) (l : List DbEvent) :
    execsOf (DbEvent.exec s :: l) = s :: execsOf l := rfl

theorem readSGP_trace (db : Db) (d : ResourceData) :
    execsOf (readRedshiftSchemaGroupPrivilege db d).1 = [] ∧
    DbEvent.commit true ∉ (readRedshiftSchemaGroupPrivilege db d).1 := by
  unfold readRedshiftSchemaGroupPrivilege
  cases h1 : scanRow (db.privRow d.schemaId d.groupId) zeroTableRow with
  | error e => simp [h1, execsOf]
  | ok t =>
    cases h2 : scanRow (db.schemaPrivRow d.schemaId d.groupId) zeroSchemaRow with
    | error e => simp [h1, h2, execsOf]
    | ok s2 => simp [h1, h2, execsOf]

theorem readSGP_ok_fields (db : Db) (d d2 : ResourceData)
    (h : (readRedshiftSchemaGroupPrivilege db d).2 = .ok d2) :
    d2.id = d.id ∧ d2.schemaId = d.schemaId ∧ d2.groupId = d.groupId ∧
    d2.oldPrivs = d.oldPrivs := by
  unfold readRedshiftSchemaGroupPrivilege at h
  cases h1 : scanRow (db.privRow d.schemaId d.groupId) zeroTableRow with
  | error e => rw [h1] at h; simp at h
  | ok t =>
    rw [h1] at h
    cases h2 : scanRow (db.schemaPrivRow d.schemaId d.groupId) zeroSchemaRow with
    | error e => rw [h2] at h; simp at h
    | ok s2 =>
      rw [h2] at h
      simp only [Except.ok.injEq] at h
      subst h
      exact ⟨rfl, rfl, rfl, rfl⟩

/-! Concrete oracles and resource states used by witnesses and
counterexamples. -/

/-- Oracle where every lookup succeeds (schema `s` owned by user 100, group
`g`), every execution and the commit succeed, and the catalog holds no
privilege rows. -/
def goodDb : Db where
  schemaInfo := fun _ => .ok ("s", 100)
  groupNameFor := fun _ => .ok "g"
  execRes := fun _ _ => none
  privRow := fun _ _ => .error DbError.noRows
  schemaPrivRow := fun _ _ => .error DbError.noRows
  existsRow := fun _ => .error DbError.noRows
  schemaExistsRow := fun _ => .error DbError.noRows
  rollbackRes := none
  commitRes := none

/-- Oracle whose schema lookup resolves to a schema owned by the reserved
system owner identifier 1. -/
def sysOwnerDb : Db :=
  { goodDb with schemaInfo := fun _ => .ok ("catalogschema", 1) }

/-- Oracle where the very first `tx.Exec` of the operation fails. -/
def failFirstExecDb : Db :=
  { goodDb with execRes := fun n _ => if n == 0 then some (DbError.fail "boom") else none }

/-- Resource state requesting no privileges at all. -/
def dAllFalse : ResourceData :=
  { schemaId := 10, groupId := 20, oldPrivs := allFalsePrivs, privs := allFalsePrivs, id := "" }

/-- Resource state newly requesting only the select privilege. -/
def dSelectNew : ResourceData :=
  { schemaId := 10, groupId := 20, oldPrivs := allFalsePrivs
    privs := { allFalsePrivs with select := true }, id := "" }

/-- Resource state newly requesting only the create and usage privileges. -/
def dCreateUsage : ResourceData :=
  { schemaId := 10, groupId := 20, oldPrivs := allFalsePrivs
    privs := { allFalsePrivs with create := true, usage := true }, id := "" }

/-- Resource state whose select flag goes from true to false (all desired
flags false). -/
def dRevokeSelect : ResourceData :=
  { schemaId := 10, groupId := 20, oldPrivs := { allFalsePrivs with select := true }
    privs := allFalsePrivs, id := "10_20" }

/-! Claim C1. -/

/-- C1 (amended): for every desired PrivilegeSet with zero true flags, both
Create and Update of a schema-group privilege fail with the ValidationError
"Must have at least 1 privilege" and no Exec or QueryRow call occurs;
however a transaction is opened before the rejection (`tx.Begin` precedes
the validation check) and rolled back, so the trace is exactly a begin
followed by a rollback. -/
theorem zeroPrivileges_rejected (db : Db) (d : ResourceData)
    (h : d.privs = allFalsePrivs) :
    resourceRedshiftSchemaGroupPrivilegeCreate db d =
      ([DbEvent.beginTx, DbEvent.rollback],
       .error (ProviderError.validation "Must have at least 1 privilege")) ∧
    resourceRedshiftSchemaGroupPrivilegeUpdate db d =
      ([DbEvent.beginTx, DbEvent.rollback],
       .error (ProviderError.validation "Must have at least 1 privilege")) := by
  have hg : validateGrants d.privs = [] := by rw [h]; rfl
  have hs : validateSchemaGrants d.privs = [] := by rw [h]; rfl
  constructor
  · simp [resourceRedshiftSchemaGroupPrivilegeCreate, hg, hs]
  · simp [resourceRedshiftSchemaGroupPrivilegeUpdate, hg, hs]

/-- Witness for zeroPrivileges_rejected at a concrete oracle and state. -/
theorem zeroPrivileges_rejected_witness :
    resourceRedshiftSchemaGroupPrivilegeCreate goodDb dAllFalse =
      ([DbEvent.beginTx, DbEvent.rollback],
       .error (ProviderError.validation "Must have at least 1 privilege")) ∧
    resourceRedshiftSchemaGroupPrivilegeUpdate goodDb dAllFalse =
      ([DbEvent.beginTx, DbEvent.rollback],
       .error (ProviderError.validation "Must have at least 1 privilege")) :=
  zeroPrivileges_rejected goodDb dAllFalse rfl

/-- C1 counterexample: with zero requested privileges the Create hook does
open a transaction before rejecting - the trace contains a Begin event -
refuting the part of the claim that says no transaction is opened before
the ValidationError. -/
theorem zeroPrivileges_opens_transaction :
    DbEvent.beginTx ∈ (resourceRedshiftSchemaGroupPrivilegeCreate goodDb dAllFalse).1 ∧
    (resourceRedshiftSchemaGroupPrivilegeCreate goodDb dAllFalse).2 =
      .error (ProviderError.validation "Must have at least 1 privilege") := by
  constructor
  · decide
  · rfl

/-! Claim C2. -/

/-- C2 (amended): the system-schema guard is applied by the Create hook
only.  Whenever the schema lookup resolves the owner to the reserved system
owner identifier (1), Create fails with a ValidationError regardless of
which privilege flags are requested, and attempts no GRANT/REVOKE/ALTER
SQL.  The Update hook discards the resolved owner and performs no such
check (see the counterexample). -/
theorem create_system_schema_guard (db : Db) (d : ResourceData) (sn : String)
    (h : db.schemaInfo d.schemaId = .ok (sn, 1)) :
    isValidationResult (resourceRedshiftSchemaGroupPrivilegeCreate db d).2 = true ∧
    execsOf (resourceRedshiftSchemaGroupPrivilegeCreate db d).1 = [] := by
  unfold resourceRedshiftSchemaGroupPrivilegeCreate
  cases hv : (validateGrants d.privs).isEmpty && (validateSchemaGrants d.privs).isEmpty with
  | true => simp [isValidationResult, execsOf]
  | false => simp [h, isSystemSchema, isValidationResult, execsOf]

/-- Witness for create_system_schema_guard at a concrete oracle whose
schema is owned by user 1. -/
theorem create_system_schema_guard_witness :
    isValidationResult (resourceRedshiftSchemaGroupPrivilegeCreate sysOwnerDb dSelectNew).2 = true ∧
    execsOf (resourceRedshiftSchemaGroupPrivilegeCreate sysOwnerDb dSelectNew).1 = [] :=
  create_system_schema_guard sysOwnerDb dSelectNew "catalogschema" rfl

/-- C2 counterexample: the Update hook run against a schema owned by the
reserved system owner succeeds and executes a GRANT against that schema,
refuting the claim that Update also fails with a ValidationError and
attempts no SQL. -/
theorem update_no_system_schema_guard :
    (resourceRedshiftSchemaGroupPrivilegeUpdate sysOwnerDb dSelectNew).2 = .ok dSelectNew ∧
    grantTablesStmt "SELECT" "catalogschema" "g" ∈
      execsOf (resourceRedshiftSchemaGroupPrivilegeUpdate sysOwnerDb dSelectNew).1 := by
  constructor
  · rfl
  · decide

/-! Claim C3. -/

/-- C3 (amended): with every execution succeeding, Create executes exactly
one combined comma-separated GRANT over all true table-level flags plus its
ALTER DEFAULT PRIVILEGES mirror (when any table-level flag is true), plus
exactly ONE combined comma-separated GRANT covering all true schema-level
flags (CREATE before USAGE) - not one statement per schema-level flag - and
nothing else. -/
theorem create_statement_builder (db : Db) (d : ResourceData) (sn gn : String) (ow : Int)
    (h1 : db.schemaInfo d.schemaId = .ok (sn, ow)) (how : isSystemSchema ow = false)
    (h2 : db.groupNameFor d.groupId = .ok gn) (hex : ∀ i s, db.execRes i s = none) :
    execsOf (resourceRedshiftSchemaGroupPrivilegeCreate db d).1 =
      (if (validateGrants d.privs).isEmpty then []
       else [createGrantStmt (validateGrants d.privs) sn gn,
             createAlterDefaultStmt (validateGrants d.privs) sn gn]) ++
      (if (validateSchemaGrants d.privs).isEmpty then []
       else [createSchemaGrantStmt (validateSchemaGrants d.privs) sn gn]) := by
  unfold resourceRedshiftSchemaGroupPrivilegeCreate
  cases hv : (validateGrants d.privs).isEmpty && (validateSchemaGrants d.privs).isEmpty with
  | true =>
    have hv2 : (validateGrants d.privs).isEmpty = true ∧
        (validateSchemaGrants d.privs).isEmpty = true := by
      constructor
      · cases hb : (validateGrants d.privs).isEmpty
        · rw [hb] at hv; simp at hv
        · rfl
      · cases hb : (validateSchemaGrants d.privs).isEmpty
        · rw [hb] at hv; simp at hv
        · rfl
    simp [hv2.1, hv2.2, execsOf]
  | false =>
    simp only [h1, how, h2, Bool.false_eq_true, if_false,
      execStmts_success db hex (createStmtList d.privs sn gn) 0]
    cases hrp : (readRedshiftSchemaGroupPrivilege db (withPrivilegeId d)).2 with
    | error e =>
      simp only [hrp, execsOf_append, execsOf_map_exec, execsOf_cons_beginTx,
        execsOf_cons_queryRow, execsOf_cons_rollback, execsOf_cons_commit, execsOf_nil,
        List.append_nil, List.nil_append, (readSGP_trace db (withPrivilegeId d)).1,
        createStmtList]
    | ok d2 =>
      cases hc : db.commitRes with
      | some e =>
        simp only [hrp, hc, execsOf_append, execsOf_map_exec, execsOf_cons_beginTx,
          execsOf_cons_queryRow, execsOf_cons_rollback, execsOf_cons_commit, execsOf_nil,
          List.append_nil, List.nil_append, (readSGP_trace db (withPrivilegeId d)).1,
          createStmtList]
      | none =>
        simp only [hrp, hc, execsOf_append, execsOf_map_exec, execsOf_cons_beginTx,
          execsOf_cons_queryRow, execsOf_cons_rollback, execsOf_cons_commit, execsOf_nil,
          List.append_nil, List.nil_append, (readSGP_trace db (withPrivilegeId d)).1,
          createStmtList]

/-- Witness for create_statement_builder: the example of the claim, desired
select and insert, yields the combined GRANT and its ALTER DEFAULT mirror. -/
theorem create_statement_builder_witness :
    execsOf (resourceRedshiftSchemaGroupPrivilegeCreate goodDb
        { dSelectNew with privs := { allFalsePrivs with select := true, insert := true } }).1 =
      (if (validateGrants { allFalsePrivs with select := true, insert := true }).isEmpty then []
       else [createGrantStmt (validateGrants { allFalsePrivs with select := true, insert := true }) "s" "g",
             createAlterDefaultStmt (validateGrants { allFalsePrivs with select := true, insert := true }) "s" "g"]) ++
      (if (validateSchemaGrants { allFalsePrivs with select := true, insert := true }).isEmpty then []
       else [createSchemaGrantStmt (validateSchemaGrants { allFalsePrivs with select := true, insert := true }) "s" "g"]) :=
  create_statement_builder goodDb
    { dSelectNew with privs := { allFalsePrivs with select := true, insert := true } }
    "s" "g" 100 rfl rfl rfl (fun _ _ => rfl)

/-- C3 counterexample: with both schema-level flags (create, usage) desired
and no table-level flag, Create executes a single combined statement
GRANT CREATE,USAGE rather than one GRANT per true schema-level flag, so the
claim's count of one statement per schema-level flag is wrong. -/
theorem create_combined_schema_grant :
    execsOf (resourceRedshiftSchemaGroupPrivilegeCreate goodDb dCreateUsage).1 =
      ["GRANT CREATE,USAGE ON SCHEMA s TO GROUP g"] ∧
    (execsOf (resourceRedshiftSchemaGroupPrivilegeCreate goodDb dCreateUsage).1).length ≠ 2 := by
  constructor
  · rfl
  · decide

/-! Claim C4. -/

/-- C4 (amended): provided the desired PrivilegeSet has at least one true
flag (otherwise Update rejects with a ValidationError before any per-flag
work, even when flags changed) and every execution succeeds, the Update
hook executes, flag by flag in source order: exactly two statements for
every changed table-level flag (a GRANT or REVOKE on all tables and the
matching ALTER DEFAULT PRIVILEGES statement), exactly one GRANT or REVOKE
on the schema object for every changed schema-level flag, and no statement
for an unchanged flag. -/
theorem update_per_flag_statements (db : Db) (d : ResourceData) (sn gn : String) (ow : Int)
    (h1 : db.schemaInfo d.schemaId = .ok (sn, ow))
    (h2 : db.groupNameFor d.groupId = .ok gn)
    (hex : ∀ i s, db.execRes i s = none)
    (hv : ((validateGrants d.privs).isEmpty && (validateSchemaGrants d.privs).isEmpty) = false) :
    execsOf (resourceRedshiftSchemaGroupPrivilegeUpdate db d).1 =
      tableFlagStmts d.oldPrivs.select d.privs.select "SELECT" sn gn ++
      tableFlagStmts d.oldPrivs.insert d.privs.insert "INSERT" sn gn ++
      tableFlagStmts d.oldPrivs.update d.privs.update "UPDATE" sn gn ++
      tableFlagStmts d.oldPrivs.delete d.privs.delete "DELETE" sn gn ++
      tableFlagStmts d.oldPrivs.references d.privs.references "REFERENCES" sn gn ++
      schemaFlagStmts d.oldPrivs.usage d.privs.usage "USAGE" sn gn ++
      schemaFlagStmts d.oldPrivs.create d.privs.create "CREATE" sn gn ∧
    (∀ o w : Bool, ∀ p : String, o ≠ w →
       (tableFlagStmts o w p sn gn).length = 2 ∧ (schemaFlagStmts o w p sn gn).length = 1) ∧
    (∀ o : Bool, ∀ p : String,
       tableFlagStmts o o p sn gn = [] ∧ schemaFlagStmts o o p sn gn = []) := by
  refine ⟨?_, ?_, ?_⟩
  · unfold resourceRedshiftSchemaGroupPrivilegeUpdate
    simp only [hv, Bool.false_eq_true, if_false, h1, h2,
      runFlagUpdates_eq db sn gn (updateFlagList d) 0,
      execStmts_success db hex (flagStmtsList (updateFlagList d) sn gn) 0]
    cases hc : db.commitRes with
    | some e =>
      simp [execsOf_append, execsOf_map_exec, execsOf_cons_beginTx, execsOf_cons_queryRow,
        execsOf_cons_rollback, execsOf_cons_commit, execsOf_nil,
        updateFlagList, flagStmtsList, flagStmts, List.append_assoc]
    | none =>
      simp [execsOf_append, execsOf_map_exec, execsOf_cons_beginTx, execsOf_cons_queryRow,
        execsOf_cons_rollback, execsOf_cons_commit, execsOf_nil,
        updateFlagList, flagStmtsList, flagStmts, List.append_assoc]
  · intro o w p how
    cases o <;> cases w <;> simp_all [tableFlagStmts, schemaFlagStmts]
  · intro o p
    cases o <;> simp [tableFlagStmts, schemaFlagStmts]

/-- Witness for update_per_flag_statements: select newly granted, every
other flag unchanged. -/
theorem update_per_flag_statements_witness :
    execsOf (resourceRedshiftSchemaGroupPrivilegeUpdate goodDb dSelectNew).1 =
      tableFlagStmts dSelectNew.oldPrivs.select dSelectNew.privs.select "SELECT" "s" "g" ++
      tableFlagStmts dSelectNew.oldPrivs.insert dSelectNew.privs.insert "INSERT" "s" "g" ++
      tableFlagStmts dSelectNew.oldPrivs.update dSelectNew.privs.update "UPDATE" "s" "g" ++
      tableFlagStmts dSelectNew.oldPrivs.delete dSelectNew.privs.delete "DELETE" "s" "g" ++
      tableFlagStmts dSelectNew.oldPrivs.references dSelectNew.privs.references "REFERENCES" "s" "g" ++
      schemaFlagStmts dSelectNew.oldPrivs.usage dSelectNew.privs.usage "USAGE" "s" "g" ++
      schemaFlagStmts dSelectNew.oldPrivs.create dSelectNew.privs.create "CREATE" "s" "g" ∧
    (∀ o w : Bool, ∀ p : String, o ≠ w →
       (tableFlagStmts o w p "s" "g").length = 2 ∧ (schemaFlagStmts o w p "s" "g").length = 1) ∧
    (∀ o : Bool, ∀ p : String,
       tableFlagStmts o o p "s" "g" = [] ∧ schemaFlagStmts o o p "s" "g" = []) :=
  update_per_flag_statements goodDb dSelectNew "s" "g" 100 rfl rfl (fun _ _ => rfl) rfl

/-- C4 counterexample: when the select flag changes from true to false and
no other flag is desired, the claim demands a REVOKE pair for the changed
flag, but Update rejects the all-false desired set with a ValidationError
and executes nothing. -/
theorem update_changed_flag_but_no_statement :
    dRevokeSelect.oldPrivs.select ≠ dRevokeSelect.privs.select ∧
    execsOf (resourceRedshiftSchemaGroupPrivilegeUpdate goodDb dRevokeSelect).1 = [] ∧
    (resourceRedshiftSchemaGroupPrivilegeUpdate goodDb dRevokeSelect).2 =
      .error (ProviderError.validation "Must have at least 1 privilege") := by
  refine ⟨by decide, rfl, rfl⟩

/-! Claim C5. -/

theorem execStmts_first_fail (db : Db) (e : DbError) :
    ∀ (l : List String) (n k : Nat),
      (∀ i s, i < k → db.execRes (n + i) s = none) →
      (∀ s, db.execRes (n + k) s = some e) →
      k < l.length →
      (execStmts db n l).2 = some e := by
  intro l
  induction l with
  | nil => intro n k _ _ hk; simp at hk
  | cons s rest ih =>
    intro n k hpre hfail hk
    cases k with
    | zero =>
      have h0 : db.execRes n s = some e := by
        have := hfail s
        simpa using this
      simp [execStmts, h0]
    | succ k =>
      have h0 : db.execRes n s = none := by
        have := hpre 0 s (Nat.succ_pos k)
        simpa using this
      have hpre2 : ∀ i s2, i < k → db.execRes (n + 1 + i) s2 = none := by
        intro i s2 hi
        have hh := hpre (i + 1) s2 (by omega)
        have harith : n + (i + 1) = n + 1 + i := by omega
        rwa [harith] at hh
      have hfail2 : ∀ s2, db.execRes (n + 1 + k) s2 = some e := by
        intro s2
        have hh := hfail s2
        have harith : n + (k + 1) = n + 1 + k := by omega
        rwa [harith] at hh
      have hk2 : k < rest.length := by
        simp only [List.length_cons] at hk
        omega
      simp only [execStmts, h0]
      exact ih (n + 1) k hpre2 hfail2 hk2

/-- C5: if a GRANT/REVOKE/ALTER statement inside the reconcile transaction
fails (the k-th executed statement returns an error, every earlier one
having succeeded), the operation returns exactly that execution error - for
every rollback outcome, since the hook ignores the rollback result beyond
logging - the trace contains the rollback, and no statement of the
operation is committed, so the warehouse state is unchanged.  Stated for
the Update hook (first conjunct) and the Create hook (second conjunct). -/
theorem midTransaction_failure_rolls_back (db1 db2 : Db) (d : ResourceData)
    (sn1 sn2 gn1 gn2 : String) (ow1 ow2 : Int) (k1 k2 : Nat) (e1 e2 : DbError)
    (hsi1 : db1.schemaInfo d.schemaId = .ok (sn1, ow1))
    (hg1 : db1.groupNameFor d.groupId = .ok gn1)
    (hv : ((validateGrants d.privs).isEmpty && (validateSchemaGrants d.privs).isEmpty) = false)
    (hpre1 : ∀ i s, i < k1 → db1.execRes i s = none)
    (hfail1 : ∀ s, db1.execRes k1 s = some e1)
    (hk1 : k1 < (flagStmtsList (updateFlagList d) sn1 gn1).length)
    (hsi2 : db2.schemaInfo d.schemaId = .ok (sn2, ow2))
    (how2 : isSystemSchema ow2 = false)
    (hg2 : db2.groupNameFor d.groupId = .ok gn2)
    (hpre2 : ∀ i s, i < k2 → db2.execRes i s = none)
    (hfail2 : ∀ s, db2.execRes k2 s = some e2)
    (hk2 : k2 < (createStmtList d.privs sn2 gn2).length) :
    ((resourceRedshiftSchemaGroupPrivilegeUpdate db1 d).2 = .error (ProviderError.db e1) ∧
     DbEvent.rollback ∈ (resourceRedshiftSchemaGroupPrivilegeUpdate db1 d).1 ∧
     appliedStmts (resourceRedshiftSchemaGroupPrivilegeUpdate db1 d).1 [] = []) ∧
    ((resourceRedshiftSchemaGroupPrivilegeCreate db2 d).2 = .error (ProviderError.db e2) ∧
     DbEvent.rollback ∈ (resourceRedshiftSchemaGroupPrivilegeCreate db2 d).1 ∧
     appliedStmts (resourceRedshiftSchemaGroupPrivilegeCreate db2 d).1 [] = []) := by
  have hsnd1 : (execStmts db1 0 (flagStmtsList (updateFlagList d) sn1 gn1)).2 = some e1 := by
    apply execStmts_first_fail db1 e1 _ 0 k1
    · intro i s hi
      simpa using hpre1 i s hi
    · intro s
      simpa using hfail1 s
    · exact hk1
  have hsnd2 : (execStmts db2 0 (createStmtList d.privs sn2 gn2)).2 = some e2 := by
    apply execStmts_first_fail db2 e2 _ 0 k2
    · intro i s hi
      simpa using hpre2 i s hi
    · intro s
      simpa using hfail2 s
    · exact hk2
  have htr1 : resourceRedshiftSchemaGroupPrivilegeUpdate db1 d =
      ([DbEvent.beginTx, DbEvent.queryRow schemaInfoQuery, DbEvent.queryRow groupNameQuery] ++
         ((execStmts db1 0 (flagStmtsList (updateFlagList d) sn1 gn1)).1 ++ [DbEvent.rollback]),
       .error (ProviderError.db e1)) := by
    unfold resourceRedshiftSchemaGroupPrivilegeUpdate
    simp only [hv, Bool.false_eq_true, if_false, hsi1, hg1,
      runFlagUpdates_eq db1 sn1 gn1 (updateFlagList d) 0, hsnd1]
  have htr2 : resourceRedshiftSchemaGroupPrivilegeCreate db2 d =
      ([DbEvent.beginTx, DbEvent.queryRow schemaInfoQuery, DbEvent.queryRow groupNameQuery] ++
         (execStmts db2 0 (createStmtList d.privs sn2 gn2)).1 ++ [DbEvent.rollback],
       .error (ProviderError.db e2)) := by
    unfold resourceRedshiftSchemaGroupPrivilegeCreate
    simp only [hv, Bool.false_eq_true, if_false, hsi2, how2, hg2, hsnd2]
  have hnc1 : DbEvent.commit true ∉ (resourceRedshiftSchemaGroupPrivilegeUpdate db1 d).1 := by
    rw [htr1]
    intro hmem
    rcases List.mem_append.mp hmem with h | h
    · simp at h
    · rcases List.mem_append.mp h with h | h
      · obtain ⟨s, hs⟩ := mem_execStmts db1 _ 0 _ h
        simp at hs
      · simp at h
  have hnc2 : DbEvent.commit true ∉ (resourceRedshiftSchemaGroupPrivilegeCreate db2 d).1 := by
    rw [htr2]
    intro hmem
    rcases List.mem_append.mp hmem with h | h
    · rcases List.mem_append.mp h with h | h
      · simp at h
      · obtain ⟨s, hs⟩ := mem_execStmts db2 _ 0 _ h
        simp at hs
    · simp at h
  refine ⟨⟨?_, ?_, appliedStmts_of_no_commit _ hnc1 []⟩,
          ⟨?_, ?_, appliedStmts_of_no_commit _ hnc2 []⟩⟩
  · rw [htr1]
  · rw [htr1]; simp
  · rw [htr2]
  · rw [htr2]; simp

/-- Witness for midTransaction_failure_rolls_back: the first executed
statement of the operation fails. -/
theorem midTransaction_failure_witness :
    ((resourceRedshiftSchemaGroupPrivilegeUpdate failFirstExecDb dSelectNew).2 =
        .error (ProviderError.db (DbError.fail "boom")) ∧
     DbEvent.rollback ∈ (resourceRedshiftSchemaGroupPrivilegeUpdate failFirstExecDb dSelectNew).1 ∧
     appliedStmts (resourceRedshiftSchemaGroupPrivilegeUpdate failFirstExecDb dSelectNew).1 [] = []) ∧
    ((resourceRedshiftSchemaGroupPrivilegeCreate failFirstExecDb dSelectNew).2 =
        .error (ProviderError.db (DbError.fail "boom")) ∧
     DbEvent.rollback ∈ (resourceRedshiftSchemaGroupPrivilegeCreate failFirstExecDb dSelectNew).1 ∧
     appliedStmts (resourceRedshiftSchemaGroupPrivilegeCreate failFirstExecDb dSelectNew).1 [] = []) :=
  midTransaction_failure_rolls_back failFirstExecDb failFirstExecDb dSelectNew "s" "s" "g" "g"
    100 100 0 0 (DbError.fail "boom") (DbError.fail "boom")
    rfl rfl rfl
    (fun i _ h => absurd h (Nat.not_lt_zero i)) (fun _ => rfl) (by decide)
    rfl rfl rfl
    (fun i _ h => absurd h (Nat.not_lt_zero i)) (fun _ => rfl) (by decide)

/-! Claim C6. -/

theorem update_trace_events (db : Db) (d : ResourceData) (ev : DbEvent)
    (h : ev ∈ (resourceRedshiftSchemaGroupPrivilegeUpdate db d).1) :
    ev = DbEvent.beginTx ∨ ev = DbEvent.queryRow schemaInfoQuery ∨
    ev = DbEvent.queryRow groupNameQuery ∨ (∃ s, ev = DbEvent.exec s) ∨
    ev = DbEvent.rollback ∨ (∃ b, ev = DbEvent.commit b) := by
  unfold resourceRedshiftSchemaGroupPrivilegeUpdate at h
  cases hv : (validateGrants d.privs).isEmpty && (validateSchemaGrants d.privs).isEmpty with
  | true =>
    simp only [hv, if_true] at h
    simp at h
    tauto
  | false =>
    simp only [hv, Bool.false_eq_true, if_false] at h
    cases hsi : db.schemaInfo d.schemaId with
    | error e =>
      simp only [hsi] at h
      simp at h
      tauto
    | ok pr =>
      obtain ⟨sn, ow⟩ := pr
      simp only [hsi] at h
      cases hg : db.groupNameFor d.groupId with
      | error e =>
        simp only [hg] at h
        simp at h
        tauto
      | ok gn =>
        simp only [hg] at h
        cases hp : (runFlagUpdates db sn gn 0 (updateFlagList d)).2 with
        | some e =>
          simp only [hp] at h
          rcases List.mem_append.mp h with h | h
          · simp at h
            tauto
          · rcases mem_runFlagUpdates db sn gn (updateFlagList d) 0 ev h with ⟨s, hs⟩ | hs
            · exact Or.inr (Or.inr (Or.inr (Or.inl ⟨s, hs⟩)))
            · tauto
        | none =>
          cases hc : db.commitRes with
          | some e =>
            simp only [hp, hc] at h
            rcases List.mem_append.mp h with h | h
            · rcases List.mem_append.mp h with h | h
              · simp at h
                tauto
              · rcases mem_runFlagUpdates db sn gn (updateFlagList d) 0 ev h with ⟨s, hs⟩ | hs
                · exact Or.inr (Or.inr (Or.inr (Or.inl ⟨s, hs⟩)))
                · tauto
            · simp at h
              exact Or.inr (Or.inr (Or.inr (Or.inr (Or.inr ⟨false, h⟩))))
          | none =>
            simp only [hp, hc] at h
            rcases List.mem_append.mp h with h | h
            · rcases List.mem_append.mp h with h | h
              · simp at h
                tauto
              · rcases mem_runFlagUpdates db sn gn (updateFlagList d) 0 ev h with ⟨s, hs⟩ | hs
                · exact Or.inr (Or.inr (Or.inr (Or.inl ⟨s, hs⟩)))
                · tauto
            · simp at h
              exact Or.inr (Or.inr (Or.inr (Or.inr (Or.inr ⟨true, h⟩))))

/-- C6 (amended): in the Create hook, after all statements succeed the
read-back of the PrivilegeSet runs inside the same still-open transaction
and the commit happens only after the read-back succeeds; when the
read-back fails the transaction is rolled back, the read-back error is
returned, and no commit occurs.  The Update hook, however, performs no
read-back at all: its trace never contains either catalog privilege query
(third conjunct), and the counterexample shows it committing without one. -/
theorem create_readback_before_commit (db : Db) (d : ResourceData) (sn gn : String) (ow : Int)
    (h1 : db.schemaInfo d.schemaId = .ok (sn, ow)) (how : isSystemSchema ow = false)
    (h2 : db.groupNameFor d.groupId = .ok gn) (hex : ∀ i s, db.execRes i s = none)
    (hv : ((validateGrants d.privs).isEmpty && (validateSchemaGrants d.privs).isEmpty) = false) :
    (∀ e, (readRedshiftSchemaGroupPrivilege db (withPrivilegeId d)).2 = .error e →
       (resourceRedshiftSchemaGroupPrivilegeCreate db d).2 = .error (ProviderError.db e) ∧
       DbEvent.commit true ∉ (resourceRedshiftSchemaGroupPrivilegeCreate db d).1 ∧
       DbEvent.rollback ∈ (resourceRedshiftSchemaGroupPrivilegeCreate db d).1) ∧
    (∀ d2, (readRedshiftSchemaGroupPrivilege db (withPrivilegeId d)).2 = .ok d2 →
       db.commitRes = none →
       resourceRedshiftSchemaGroupPrivilegeCreate db d =
         ([DbEvent.beginTx, DbEvent.queryRow schemaInfoQuery, DbEvent.queryRow groupNameQuery] ++
            (createStmtList d.privs sn gn).map DbEvent.exec ++
            (readRedshiftSchemaGroupPrivilege db (withPrivilegeId d)).1 ++
            [DbEvent.commit true], .ok d2)) ∧
    (∀ (db0 : Db) (d0 : ResourceData),
       DbEvent.queryRow hasPrivilegeQuery ∉
         (resourceRedshiftSchemaGroupPrivilegeUpdate db0 d0).1 ∧
       DbEvent.queryRow hasSchemaPrivilegeQuery ∉
         (resourceRedshiftSchemaGroupPrivilegeUpdate db0 d0).1) := by
  refine ⟨?_, ?_, ?_⟩
  · intro e hrp
    have htr : resourceRedshiftSchemaGroupPrivilegeCreate db d =
        ([DbEvent.beginTx, DbEvent.queryRow schemaInfoQuery, DbEvent.queryRow groupNameQuery] ++
           (createStmtList d.privs sn gn).map DbEvent.exec ++
           (readRedshiftSchemaGroupPrivilege db (withPrivilegeId d)).1 ++ [DbEvent.rollback],
         .error (ProviderError.db e)) := by
      unfold resourceRedshiftSchemaGroupPrivilegeCreate
      simp only [hv, Bool.false_eq_true, if_false, h1, how, h2,
        execStmts_success db hex (createStmtList d.privs sn gn) 0, hrp]
    refine ⟨by rw [htr], ?_, by rw [htr]; simp⟩
    rw [htr]
    intro hmem
    rcases List.mem_append.mp hmem with h | h
    · rcases List.mem_append.mp h with h | h
      · rcases List.mem_append.mp h with h | h
        · simp at h
        · rcases List.mem_map.mp h with ⟨s, _, hs⟩
          simp at hs
      · exact (readSGP_trace db (withPrivilegeId d)).2 h
    · simp at h
  · intro d2 hrp hc
    unfold resourceRedshiftSchemaGroupPrivilegeCreate
    simp only [hv, Bool.false_eq_true, if_false, h1, how, h2,
      execStmts_success db hex (createStmtList d.privs sn gn) 0, hrp, hc]
  · intro db0 d0
    constructor
    · intro hmem
      rcases update_trace_events db0 d0 _ hmem with h | h | h | ⟨s, h⟩ | h | ⟨b, h⟩ <;>
        simp [hasPrivilegeQuery, schemaInfoQuery, groupNameQuery] at h
    · intro hmem
      rcases update_trace_events db0 d0 _ hmem with h | h | h | ⟨s, h⟩ | h | ⟨b, h⟩ <;>
        simp [hasSchemaPrivilegeQuery, schemaInfoQuery, groupNameQuery] at h

/-- Witness for create_readback_before_commit: a successful Create whose
trace performs the read-back before the commit. -/
theorem create_readback_before_commit_witness :
    resourceRedshiftSchemaGroupPrivilegeCreate goodDb dSelectNew =
      ([DbEvent.beginTx, DbEvent.queryRow schemaInfoQuery, DbEvent.queryRow groupNameQuery] ++
         (createStmtList dSelectNew.privs "s" "g").map DbEvent.exec ++
         (readRedshiftSchemaGroupPrivilege goodDb (withPrivilegeId dSelectNew)).1 ++
         [DbEvent.commit true],
       .ok { dSelectNew with id := mkPrivilegeId 10 20, privs := allFalsePrivs }) :=
  (create_readback_before_commit goodDb dSelectNew "s" "g" 100 rfl rfl rfl
      (fun _ _ => rfl) rfl).2.1
    { dSelectNew with id := mkPrivilegeId 10 20, privs := allFalsePrivs } rfl rfl

/-- C6 counterexample: a successful Update commits without ever performing
the read-back - its trace contains the commit but neither catalog privilege
query - refuting the claim that every reconcile operation reads back before
committing. -/
theorem update_commits_without_readback :
    (resourceRedshiftSchemaGroupPrivilegeUpdate goodDb dSelectNew).2 = .ok dSelectNew ∧
    DbEvent.commit true ∈ (resourceRedshiftSchemaGroupPrivilegeUpdate goodDb dSelectNew).1 ∧
    DbEvent.queryRow hasPrivilegeQuery ∉
      (resourceRedshiftSchemaGroupPrivilegeUpdate goodDb dSelectNew).1 ∧
    DbEvent.queryRow hasSchemaPrivilegeQuery ∉
      (resourceRedshiftSchemaGroupPrivilegeUpdate goodDb dSelectNew).1 := by
  refine ⟨rfl, by decide, by decide, by decide⟩

/-! Claim C7. -/

/-- Resource state whose desired flags equal the recorded prior state. -/
def dSteady : ResourceData :=
  { schemaId := 10, groupId := 20, oldPrivs := { allFalsePrivs with select := true }
    privs := { allFalsePrivs with select := true }, id := "10_20" }

/-- C7: applying the same desired PrivilegeSet again, with the recorded
state reflecting the first application (old state equal to desired state),
makes every per-flag change check a no-op - each updatePrivilege and
updateSchemaPrivilege call with equal old and new values returns at once
with no events - and the second Update call executes zero
GRANT/REVOKE/ALTER statements. -/
theorem idempotent_update (db : Db) (d : ResourceData) (h : d.oldPrivs = d.privs) :
    execsOf (resourceRedshiftSchemaGroupPrivilegeUpdate db d).1 = [] ∧
    (∀ (n : Nat) (o : Bool) (p sn gn : String),
       updatePrivilege db n o o p sn gn = ([], none) ∧
       updateSchemaPrivilege db n o o p sn gn = ([], none)) := by
  constructor
  · have hfl : ∀ sn gn, flagStmtsList (updateFlagList d) sn gn = [] := by
      intro sn gn
      simp [updateFlagList, flagStmtsList, flagStmts, tableFlagStmts, schemaFlagStmts, h]
    unfold resourceRedshiftSchemaGroupPrivilegeUpdate
    cases hv : (validateGrants d.privs).isEmpty && (validateSchemaGrants d.privs).isEmpty with
    | true => simp [execsOf]
    | false =>
      cases hsi : db.schemaInfo d.schemaId with
      | error e => simp [hsi, execsOf]
      | ok pr =>
        obtain ⟨sn, ow⟩ := pr
        simp only [hsi, Bool.false_eq_true, if_false]
        cases hg : db.groupNameFor d.groupId with
        | error e => simp [hg, execsOf]
        | ok gn =>
          simp only [hg, runFlagUpdates_eq db sn gn (updateFlagList d) 0, hfl sn gn]
          cases hc : db.commitRes with
          | some e => simp [hc, execStmts, execsOf]
          | none => simp [hc, execStmts, execsOf]
  · intro n o p sn gn
    constructor <;> simp [updatePrivilege, updateSchemaPrivilege]

/-- Witness for idempotent_update at a steady concrete state. -/
theorem idempotent_update_witness :
    execsOf (resourceRedshiftSchemaGroupPrivilegeUpdate goodDb dSteady).1 = [] ∧
    (∀ (n : Nat) (o : Bool) (p sn gn : String),
       updatePrivilege goodDb n o o p sn gn = ([], none) ∧
       updateSchemaPrivilege goodDb n o o p sn gn = ([], none)) :=
  idempotent_update goodDb dSteady rfl

/-! Claim C8. -/

/-- C8: in the catalog read-back, absence of a matching row
(`sql.ErrNoRows`) is not an error: when both privilege queries return no
row the read succeeds with every flag false and performs no rollback; only
a genuine query failure (an error other than no-rows) of either query makes
the read fail, roll back, and return that error. -/
theorem read_noRows_defaults_false (db : Db) (d : ResourceData) :
    (db.privRow d.schemaId d.groupId = .error DbError.noRows →
     db.schemaPrivRow d.schemaId d.groupId = .error DbError.noRows →
     readRedshiftSchemaGroupPrivilege db d =
       ([DbEvent.queryRow hasPrivilegeQuery, DbEvent.queryRow hasSchemaPrivilegeQuery],
        .ok { d with privs := allFalsePrivs })) ∧
    (∀ m, db.privRow d.schemaId d.groupId = .error (DbError.fail m) →
       readRedshiftSchemaGroupPrivilege db d =
         ([DbEvent.queryRow hasPrivilegeQuery, DbEvent.rollback], .error (DbError.fail m))) ∧
    (∀ t m, db.privRow d.schemaId d.groupId = .ok t →
       db.schemaPrivRow d.schemaId d.groupId = .error (DbError.fail m) →
       readRedshiftSchemaGroupPrivilege db d =
         ([DbEvent.queryRow hasPrivilegeQuery, DbEvent.queryRow hasSchemaPrivilegeQuery,
           DbEvent.rollback], .error (DbError.fail m))) := by
  refine ⟨?_, ?_, ?_⟩
  · intro hp hs
    unfold readRedshiftSchemaGroupPrivilege
    simp [hp, hs, scanRow, zeroTableRow, zeroSchemaRow, allFalsePrivs]
  · intro m hp
    unfold readRedshiftSchemaGroupPrivilege
    simp [hp, scanRow]
  · intro t m hp hs
    unfold readRedshiftSchemaGroupPrivilege
    simp [hp, hs, scanRow]

/-- Witness for read_noRows_defaults_false: both catalog queries find no
row and the read succeeds with every flag false. -/
theorem read_noRows_defaults_false_witness :
    readRedshiftSchemaGroupPrivilege goodDb dSelectNew =
      ([DbEvent.queryRow hasPrivilegeQuery, DbEvent.queryRow hasSchemaPrivilegeQuery],
       .ok { dSelectNew with privs := allFalsePrivs }) :=
  (read_noRows_defaults_false goodDb dSelectNew).1 rfl rfl

/-! Claim C9. -/

/-- C9: a successful Create stores the identifier
decimal schema_id, underscore, decimal group_id; a successful Read leaves
the identifier unchanged, and Update and Delete return the resource data
unchanged (no SetId call anywhere in them); the Exists query's row filter
accepts exactly that concatenated form. -/
theorem privilege_identifier (db : Db) (d d2 : ResourceData) :
    ((resourceRedshiftSchemaGroupPrivilegeCreate db d).2 = .ok d2 →
       d2.id = mkPrivilegeId d.schemaId d.groupId) ∧
    ((resourceRedshiftSchemaGroupPrivilegeRead db d).2 = .ok d2 → d2.id = d.id) ∧
    ((resourceRedshiftSchemaGroupPrivilegeUpdate db d).2 = .ok d2 → d2 = d) ∧
    ((resourceRedshiftSchemaGroupPrivilegeDelete db d).2 = .ok d2 → d2 = d) ∧
    (∀ s g : Int, existsQueryIdMatch s g (mkPrivilegeId s g) = true) := by
  refine ⟨?_, ?_, ?_, ?_, ?_⟩
  · intro h
    unfold resourceRedshiftSchemaGroupPrivilegeCreate at h
    cases hv : (validateGrants d.privs).isEmpty && (validateSchemaGrants d.privs).isEmpty with
    | true => simp [hv] at h
    | false =>
      simp only [hv, Bool.false_eq_true, if_false] at h
      cases hsi : db.schemaInfo d.schemaId with
      | error e => simp [hsi] at h
      | ok pr =>
        obtain ⟨sn, ow⟩ := pr
        simp only [hsi] at h
        cases hio : isSystemSchema ow with
        | true => simp [hio] at h
        | false =>
          simp only [hio, Bool.false_eq_true, if_false] at h
          cases hg : db.groupNameFor d.groupId with
          | error e => simp [hg] at h
          | ok gn =>
            simp only [hg] at h
            cases hp : (execStmts db 0 (createStmtList d.privs sn gn)).2 with
            | some e => simp [hp] at h
            | none =>
              simp only [hp] at h
              cases hrp : (readRedshiftSchemaGroupPrivilege db (withPrivilegeId d)).2 with
              | error e => simp [hrp] at h
              | ok d3 =>
                simp only [hrp] at h
                cases hc : db.commitRes with
                | some e => simp [hc] at h
                | none =>
                  simp only [hc, Except.ok.injEq] at h
                  subst h
                  have hid := (readSGP_ok_fields db (withPrivilegeId d) d3 hrp).1
                  rw [hid]
                  rfl
  · intro h
    unfold resourceRedshiftSchemaGroupPrivilegeRead at h
    cases hrp : (readRedshiftSchemaGroupPrivilege db d).2 with
    | error e => simp [hrp] at h
    | ok d1 =>
      simp only [hrp] at h
      cases hc : db.commitRes with
      | some e => simp [hc] at h
      | none =>
        simp only [hc, Except.ok.injEq] at h
        subst h
        exact (readSGP_ok_fields db d d1 hrp).1
  · intro h
    unfold resourceRedshiftSchemaGroupPrivilegeUpdate at h
    cases hv : (validateGrants d.privs).isEmpty && (validateSchemaGrants d.privs).isEmpty with
    | true => simp [hv] at h
    | false =>
      simp only [hv, Bool.false_eq_true, if_false] at h
      cases hsi : db.schemaInfo d.schemaId with
      | error e => simp [hsi] at h
      | ok pr =>
        obtain ⟨sn, ow⟩ := pr
        simp only [hsi] at h
        cases hg : db.groupNameFor d.groupId with
        | error e => simp [hg] at h
        | ok gn =>
          simp only [hg] at h
          cases hp : (runFlagUpdates db sn gn 0 (updateFlagList d)).2 with
          | some e => simp [hp] at h
          | none =>
            simp only [hp] at h
            cases hc : db.commitRes with
            | some e => simp [hc] at h
            | none =>
              simp only [hc, Except.ok.injEq] at h
              exact h.symm
  · intro h
    unfold resourceRedshiftSchemaGroupPrivilegeDelete at h
    cases hsi : db.schemaInfo d.schemaId with
    | error e => simp [hsi] at h
    | ok pr =>
      obtain ⟨sn, ow⟩ := pr
      simp only [hsi] at h
      cases hg : db.groupNameFor d.groupId with
      | error e => simp [hg] at h
      | ok gn =>
        simp only [hg] at h
        cases hp : (execStmts db 0 (deleteStmtList sn gn)).2 with
        | some e => simp [hp] at h
        | none =>
          simp only [hp] at h
          cases hc : db.commitRes with
          | some e => simp [hc] at h
          | none =>
            simp only [hc, Except.ok.injEq] at h
            exact h.symm
  · intro s g
    simp [existsQueryIdMatch, mkPrivilegeId]

/-- Witness for privilege_identifier: the successful Create of the concrete
run stores the identifier built from schema id 10 and group id 20, and the
Exists filter accepts it. -/
theorem privilege_identifier_witness :
    ({ dSelectNew with id := mkPrivilegeId 10 20, privs := allFalsePrivs } : ResourceData).id =
      mkPrivilegeId dSelectNew.schemaId dSelectNew.groupId ∧
    existsQueryIdMatch 10 20 (mkPrivilegeId 10 20) = true :=
  ⟨(privilege_identifier goodDb dSelectNew
      { dSelectNew with id := mkPrivilegeId 10 20, privs := allFalsePrivs }).1 rfl,
   (privilege_identifier goodDb dSelectNew dSelectNew).2.2.2.2 10 20⟩

/-! Claim C10. -/

/-- C10: both Exists hooks (privilege resource and schema resource) report
a vanished resource as plain absence: no-rows yields (false, nil), any
other query error yields (false, that error), and a scanned row yields
(true, nil). -/
theorem exists_hooks_semantics (db : Db) (d : ResourceData) (idStr : String) :
    (db.existsRow d.id = .error DbError.noRows →
       resourceRedshiftSchemaGroupPrivilegeExists db d = (false, none)) ∧
    (∀ m, db.existsRow d.id = .error (DbError.fail m) →
       resourceRedshiftSchemaGroupPrivilegeExists db d = (false, some (DbError.fail m))) ∧
    (∀ row, db.existsRow d.id = .ok row →
       resourceRedshiftSchemaGroupPrivilegeExists db d = (true, none)) ∧
    (db.schemaExistsRow idStr = .error DbError.noRows →
       resourceRedshiftSchemaExists db idStr = (false, none)) ∧
    (∀ m, db.schemaExistsRow idStr = .error (DbError.fail m) →
       resourceRedshiftSchemaExists db idStr = (false, some (DbError.fail m))) ∧
    (∀ row, db.schemaExistsRow idStr = .ok row →
       resourceRedshiftSchemaExists db idStr = (true, none)) := by
  refine ⟨fun h => ?_, fun m h => ?_, fun row h => ?_, fun h => ?_, fun m h => ?_,
    fun row h => ?_⟩ <;>
    simp [resourceRedshiftSchemaGroupPrivilegeExists, resourceRedshiftSchemaExists, h]

/-- Witness for exists_hooks_semantics: both hooks report absence with no
error when the existence queries find no row. -/
theorem exists_hooks_semantics_witness :
    resourceRedshiftSchemaGroupPrivilegeExists goodDb dSelectNew = (false, none) ∧
    resourceRedshiftSchemaExists goodDb "7" = (false, none) :=
  ⟨(exists_hooks_semantics goodDb dSelectNew "7").1 rfl,
   (exists_hooks_semantics goodDb dSelectNew "7").2.2.2.1 rfl⟩

end Redshift
